import Mathlib

/-!
Shallow embedding of `consulta_API_2.py`: a paginated TMDb movie harvester
with a retrying HTTP fetcher (`get_json`), per-item enrichment
(`process_page`), a title-deduplicating MongoDB writer (`save_to_mongodb`)
and a page checkpoint file (`page.txt`) rewritten by `main` after each page.

HTTP responses, MongoDB state and the checkpoint file are modelled as
explicit values: each logical fetch call is given the sequence of HTTP
outcomes its successive request attempts would observe, and the store is a
list of documents.  A Python exception that escapes a function is modelled
as `Except.error ()`.
-/

/-- Model of Python's `int(s)` on a string: strips surrounding whitespace,
accepts an optional sign followed by at least one decimal digit, and raises
`ValueError` (here: `none`) otherwise. -/
def pyInt (s : String) : Option Int :=
  let trimmed := ((s.toList.dropWhile Char.isWhitespace).reverse.dropWhile
    Char.isWhitespace).reverse
  let digitsVal : List Char → Int := fun l =>
    l.foldl (fun a c => 10 * a + (Int.ofNat (c.toNat - 48))) 0
  let allDigits : List Char → Bool := fun l =>
    !l.isEmpty && l.all (fun c => '0' ≤ c && c ≤ '9')
  match trimmed with
  | '+' :: rest => if allDigits rest then some (digitsVal rest) else none
  | '-' :: rest => if allDigits rest then some (-(digitsVal rest)) else none
  | l => if allDigits l then some (digitsVal l) else none

/-- Outcome of one HTTP request attempt inside `get_json`, as the source
distinguishes them: status 200 with a parsed JSON body, status 429 with an
optional `Retry-After` header string, any other status code, or a
network-level `requests.exceptions.RequestException`. -/
inductive HttpResult (β : Type) where
  | ok (body : β)
  | tooManyRequests (retryAfter : Option String)
  | otherStatus (code : Nat)
  | requestException
  deriving DecidableEq

/-- Whether `time.sleep(v)` on the int `v` raises instead of sleeping:
CPython raises `ValueError` (`sleep length must be non-negative`) for a
negative duration, and `OverflowError` for a duration whose nanosecond
count does not fit the signed 64-bit `_PyTime_t`
(`(2^63 - 1) / 10^9` rounds down to `9223372036` seconds). -/
def pySleepRaises (v : Int) : Bool :=
  decide (v < 0) || decide (9223372036 < v)

/-- Attempt loop of `get_json` (source lines 67-83): `attempt` is the index
of the next request, `fuel` the number of attempts left.  On 200 the parsed
body is returned; on 429 the code evaluates
`int(response.headers.get('Retry-After', 180))` — when the header is
present but not an integer string this raises an uncaught `ValueError`
(`Except.error ()`) — and then `time.sleep(retry_after)`, which itself
raises uncaught for a negative or unrepresentably large parsed value;
other statuses and network errors sleep a constant and retry.  When the
loop exhausts the budget the function returns `None`. -/
def get_jsonAux (resp : Nat → HttpResult β) : Nat → Nat → Except Unit (Option β)
  | _, 0 => Except.ok none
  | attempt, fuel + 1 =>
    match resp attempt with
    | .ok body => Except.ok (some body)
    | .tooManyRequests none => get_jsonAux resp (attempt + 1) fuel
    | .tooManyRequests (some s) =>
      match pyInt s with
      | some v =>
        if pySleepRaises v then Except.error ()
        else get_jsonAux resp (attempt + 1) fuel
      | none => Except.error ()
    | .otherStatus _ => get_jsonAux resp (attempt + 1) fuel
    | .requestException => get_jsonAux resp (attempt + 1) fuel

/-- `get_json(url, params, max_retries)` (source lines 55-85), with the
sequence of HTTP outcomes for its attempts passed explicitly.  Returns
`ok (some body)` on success, `ok none` (Python `None`) after exhausting the
attempt budget, and `error ()` when an exception escapes the call. -/
def get_json (resp : Nat → HttpResult β) (max_retries : Nat) :
    Except Unit (Option β) :=
  get_jsonAux resp 0 max_retries

/-- The JSON body of a `/person/{id}` response, as the fields the source
reads: `data.get('name')`, `data.get('place_of_birth', 'Desconhecida')`
and `data.get('birthday')`.  For `place_of_birth` the outer `Option`
distinguishes an absent key (`none`, which triggers the `'Desconhecida'`
default) from a present key (`some v`) whose value `v` may itself be JSON
`null` (`none`) or a string. -/
structure PersonData where
  name : Option String
  place_of_birth : Option (Option String)
  birthday : Option String
  deriving DecidableEq

/-- The dict returned by `get_person_details` (source lines 108-112). -/
structure Profile where
  nome : Option String
  idade : Option Int
  nacionalidade : Option String
  deriving DecidableEq

/-- `get_person_details(person_id)` (source lines 87-113), with the HTTP
outcomes of its `get_json` call passed explicitly and `datetime.now().year`
as `currentYear`.  Age is `currentYear - int(birthday[:4])` when the
birthday string is truthy; `int` on a malformed prefix raises
(`Except.error ()`). -/
def get_person_details (resp : Nat → HttpResult PersonData)
    (currentYear : Int) : Except Unit (Option Profile) :=
  match get_json resp 3 with
  | .error e => .error e
  | .ok none => .ok none
  | .ok (some data) =>
    let nome := data.name
    let nacionalidade : Option String :=
      match data.place_of_birth with
      | none => some "Desconhecida"
      | some v => v
    match data.birthday with
    | none => .ok (some ⟨nome, none, nacionalidade⟩)
    | some b =>
      if b = "" then .ok (some ⟨nome, none, nacionalidade⟩)
      else
        match pyInt (b.take 4) with
        | some y => .ok (some ⟨nome, some (currentYear - y), nacionalidade⟩)
        | none => .error ()

/-- The fields of a `/movie/{id}` detail body the source reads:
`title`, `release_date`, the names of the `genres` list entries and
`vote_average`. -/
structure MovieDetails where
  title : Option String
  release_date : Option String
  genres : List String
  vote_average : Option Rat
  deriving DecidableEq

/-- One entry of a credits body's `crew` list: `name` and `job`. -/
structure CrewMember where
  name : String
  job : String
  deriving DecidableEq

/-- One entry of a credits body's `cast` list: `id` and `name`. -/
structure CastMember where
  id : Nat
  name : String
  deriving DecidableEq

/-- A `/movie/{id}/credits` body: `credits.get('crew', [])` and
`credits.get('cast', [])`. -/
structure Credits where
  crew : List CrewMember
  cast : List CastMember
  deriving DecidableEq

/-- The dict appended to `page_movies` for one film
(source lines 169-178). -/
structure FilmeInfo where
  titulo : Option String
  ano : Option Int
  genero : String
  diretor : String
  nota : Option Rat
  dataLancamento : Option String
  atorPrincipal : Option Profile
  atoresCoadjuvantes : List String
  deriving DecidableEq

/-- Source line 152: `generos[0]['name'] if generos else 'Desconhecido'`. -/
def generoOf (details : MovieDetails) : String :=
  match details.genres with
  | [] => "Desconhecido"
  | g :: _ => g

/-- Source line 155: the first crew member whose `job` is `'Director'`,
or `'Desconhecido'` if none. -/
def diretorOf (credits : Credits) : String :=
  match credits.crew.find? (fun member => member.job == "Director") with
  | some member => member.name
  | none => "Desconhecido"

/-- Source line 166: `[actor['name'] for actor in elenco[1:5]]` when the
cast has more than one entry, else `[]`. -/
def coadjuvantesOf (elenco : List CastMember) : List String :=
  if elenco.length > 1 then ((elenco.drop 1).take 4).map (fun a => a.name)
  else []

/-- Source line 171: `int(release_date[:4])` when `release_date` is truthy,
else `None`; `int` on a malformed prefix raises. -/
def anoOf (details : MovieDetails) : Except Unit (Option Int) :=
  match details.release_date with
  | none => .ok none
  | some d =>
    if d = "" then .ok none
    else
      match pyInt (d.take 4) with
      | some y => .ok (some y)
      | none => .error ()

/-- The HTTP outcomes observed while enriching one listed movie: the
attempt sequences of its detail fetch, its credits fetch and the (at most
one) person lookup for the first cast member. -/
structure MovieEnv where
  detailsResp : Nat → HttpResult MovieDetails
  creditsResp : Nat → HttpResult Credits
  personResp : Nat → HttpResult PersonData

/-- Source lines 157-163: the primary cast member is `elenco[0]` if the
cast is nonempty, and only then is `get_person_details` called. -/
def fetchPrincipal (env : MovieEnv) (elenco : List CastMember)
    (currentYear : Int) : Except Unit (Option Profile) :=
  match elenco with
  | [] => .ok none
  | _ :: _ => get_person_details env.personResp currentYear

/-- Body of the per-movie loop of `process_page` (source lines 138-180),
before the surrounding `try`/`except`: `ok none` models a `continue` after
a failed detail or credits fetch, `error ()` an exception thrown while
processing the movie. -/
def process_movie_body (env : MovieEnv) (currentYear : Int) :
    Except Unit (Option FilmeInfo) :=
  match get_json env.detailsResp 3 with
  | .error e => .error e
  | .ok none => .ok none
  | .ok (some movie_details) =>
    match get_json env.creditsResp 3 with
    | .error e => .error e
    | .ok none => .ok none
    | .ok (some credits) =>
      let genero := generoOf movie_details
      let diretor := diretorOf credits
      let elenco := credits.cast
      match fetchPrincipal env elenco currentYear with
      | .error e => .error e
      | .ok ator_principal_details =>
        let atores_coadjuvantes := coadjuvantesOf elenco
        match anoOf movie_details with
        | .error e => .error e
        | .ok ano =>
          .ok (some { titulo := movie_details.title
                      ano := ano
                      genero := genero
                      diretor := diretor
                      nota := movie_details.vote_average
                      dataLancamento := movie_details.release_date
                      atorPrincipal := ator_principal_details
                      atoresCoadjuvantes := atores_coadjuvantes })

/-- One movie of the per-page loop with its `try`/`except` (source lines
137-184): an exception during enrichment is caught and the movie skipped. -/
def process_movie (env : MovieEnv) (currentYear : Int) : Option FilmeInfo :=
  match process_movie_body env currentYear with
  | .error _ => none
  | .ok r => r

/-- `process_page(page, end_page)` (source lines 115-189), with the listing
call's HTTP outcomes passed explicitly; a 200 body is the page's list of
movies, each carrying the HTTP outcomes of its own enrichment calls.  A
falsy listing result returns `[]` (page skipped); an exception escaping the
listing fetch propagates. -/
def process_page (listingResp : Nat → HttpResult (List MovieEnv))
    (currentYear : Int) : Except Unit (List FilmeInfo) :=
  match get_json listingResp 3 with
  | .error e => .error e
  | .ok none => .ok []
  | .ok (some movies) =>
    .ok (movies.filterMap (fun env => process_movie env currentYear))

/-- Titles of the documents in the store, as read by
`collection.find({}, {'titulo': 1})` (source line 209). -/
def titlesOf (store : List FilmeInfo) : List (Option String) :=
  store.map (fun f => f.titulo)

/-- `save_to_mongodb(movies)` (source lines 191-228) over an explicit store
state: returns the new store contents and the number of inserted documents.
An empty input returns 0 without touching the store; otherwise the movies
whose `titulo` is not among the store's existing titles are appended as one
batch. -/
def save_to_mongodb (store movies : List FilmeInfo) :
    List FilmeInfo × Nat :=
  if movies.isEmpty then (store, 0)
  else
    let titulos_existentes := titlesOf store
    let novos_filmes :=
      movies.filter (fun filme => decide (filme.titulo ∉ titulos_existentes))
    (store ++ novos_filmes, novos_filmes.length)

/-- The cross-page state of `main`: the integer in `page.txt`
(the checkpoint), the store contents and the running `total_filmes`. -/
structure RunState where
  checkpoint : Nat
  store : List FilmeInfo
  total : Nat
  deriving DecidableEq

/-- The page-level retry loop of `main` (source lines 243-256):
`page_movies` starts as `[]`, each attempt calls `process_page` and breaks
on success; an exception is caught and, after the budget, the page is
skipped with `page_movies` still `[]`.  `pageEnv k` is the listing
environment seen by the k-th attempt. -/
def attempt_page (pageEnv : Nat → Nat → HttpResult (List MovieEnv))
    (currentYear : Int) : Nat → Nat → List FilmeInfo
  | _, 0 => []
  | attempt, fuel + 1 =>
    match process_page (pageEnv attempt) currentYear with
    | .ok ms => ms
    | .error _ => attempt_page pageEnv currentYear (attempt + 1) fuel

/-- One iteration of `main`'s page loop (source lines 241-268): run the
page with up to 3 attempts, save nonempty results to MongoDB adding the
insert count to the total, then unconditionally overwrite `page.txt` with
`page + 1`. -/
def main_step (pageEnv : Nat → Nat → HttpResult (List MovieEnv))
    (currentYear : Int) (page : Nat) (s : RunState) : RunState :=
  let page_movies := attempt_page pageEnv currentYear 0 3
  if page_movies.isEmpty then
    { s with checkpoint := page + 1 }
  else
    let r := save_to_mongodb s.store page_movies
    { checkpoint := page + 1, store := r.1, total := s.total + r.2 }

/-- `main`'s loop over the page range (source line 241), with
`pageEnvs page attempt` giving the listing environment of each attempt of
each page. -/
def main_loop (pageEnvs : Nat → Nat → Nat → HttpResult (List MovieEnv))
    (currentYear : Int) (pages : List Nat) (s : RunState) : RunState :=
  pages.foldl (fun st p => main_step (pageEnvs p) currentYear p st) s

/-- Number of documents in the store whose `titulo` equals `t`. -/
def countTitle (t : Option String) (l : List FilmeInfo) : Nat :=
  (l.filter (fun f => decide (f.titulo = t))).length

/-- A response that `get_json` treats as a retriable failure without
raising: a network error, a non-429 non-200 status, or a 429 whose
`Retry-After` header is absent or parses to an integer that is a valid
sleep duration (a non-integer header raises `ValueError` from `int`, and
a negative or unrepresentably large value raises from `time.sleep`). -/
def cleanFailure : HttpResult β → Bool
  | .ok _ => false
  | .tooManyRequests none => true
  | .tooManyRequests (some s) =>
    match pyInt s with
    | some v => !(pySleepRaises v)
    | none => false
  | .otherStatus _ => true
  | .requestException => true

/-- Any attempt outcome other than HTTP 200. -/
def isFailureStatus : HttpResult β → Bool
  | .ok _ => false
  | _ => true

/-- A minimal persisted document with the given title and year. -/
def mkFilme (t : Option String) (a : Option Int) : FilmeInfo :=
  { titulo := t, ano := a, genero := "Desconhecido", diretor := "Desconhecido",
    nota := none, dataLancamento := none, atorPrincipal := none,
    atoresCoadjuvantes := [] }

/-- Two distinct records sharing the title `"Aurora"`. -/
def dupBatchA : List FilmeInfo :=
  [mkFilme (some "Aurora") (some 1990), mkFilme (some "Aurora") (some 1991)]

/-- Two distinct records sharing the title `"Beleza"`. -/
def dupBatchB : List FilmeInfo :=
  [mkFilme (some "Beleza") none, mkFilme (some "Beleza") (some 2000)]

/-- Sample store holding one record. -/
def storeW : List FilmeInfo := [mkFilme (some "Casablanca") (some 1942)]

/-- Sample batch with pairwise-distinct titles, one of them already in
`storeW`. -/
def moviesW : List FilmeInfo :=
  [mkFilme (some "Metropolis") (some 1927),
   mkFilme (some "Casablanca") (some 1942)]

/-- Sample store and batch for the dedup invariant. -/
def storeW3 : List FilmeInfo := [mkFilme (some "Vertigo") (some 1958)]

/-- Sample batch for the dedup invariant. -/
def moviesW3 : List FilmeInfo := [mkFilme (some "Psicose") (some 1960)]

/-- Attempt outcomes failing twice then succeeding on the third attempt. -/
def respBudgetW : Nat → HttpResult Nat := fun k =>
  if k = 2 then HttpResult.ok 7 else HttpResult.requestException

/-- Attempt outcomes failing every attempt with HTTP 500. -/
def respAllFailW : Nat → HttpResult Nat := fun _ => HttpResult.otherStatus 500

/-- Attempt outcomes with no 200 anywhere: a 500, then 429 responses whose
`Retry-After` header is an HTTP-date rather than an integer. -/
def respRaise : Nat → HttpResult Nat := fun k =>
  if k = 0 then HttpResult.otherStatus 500
  else HttpResult.tooManyRequests (some "Mon, 02 Jun 2025 08:00:00 GMT")

/-- A first attempt hitting a 429 whose `Retry-After` is an HTTP-date,
followed by attempts that would succeed. -/
def respRetryAfterDate : Nat → HttpResult Nat := fun k =>
  if k = 0 then HttpResult.tooManyRequests (some "Sat, 01 Feb 2025 10:00:00 GMT")
  else HttpResult.ok 42

/-- A page whose listing fetch raises on every attempt of every retry:
the first listing request hits a 429 whose `Retry-After` is an
HTTP-date. -/
def failPageEnv : Nat → Nat → HttpResult (List MovieEnv) := fun _ _ =>
  HttpResult.tooManyRequests (some "Tue, 08 Jul 2025 12:00:00 GMT")

/-- Pages whose listing fetch always succeeds with an empty result list. -/
def okPageEnvs : Nat → Nat → Nat → HttpResult (List MovieEnv) :=
  fun _ _ _ => HttpResult.ok []

/-- A detail body with an empty genre list. -/
def detC6 : MovieDetails :=
  { title := some "Filme Cinza", release_date := some "1999-03-31",
    genres := [], vote_average := none }

/-- A credits body whose crew has no `'Director'` entry and whose cast is
empty. -/
def creC6 : Credits :=
  { crew := [{ name := "Ann Smith", job := "Producer" }], cast := [] }

/-- Enrichment environment for an item with empty genres and no director. -/
def envC6 : MovieEnv :=
  { detailsResp := fun _ => HttpResult.ok detC6
    creditsResp := fun _ => HttpResult.ok creC6
    personResp := fun _ => HttpResult.requestException }

/-- The record `process_movie` produces from `envC6`. -/
def recC6 : FilmeInfo :=
  { titulo := some "Filme Cinza", ano := some 1999, genero := "Desconhecido",
    diretor := "Desconhecido", nota := none,
    dataLancamento := some "1999-03-31", atorPrincipal := none,
    atoresCoadjuvantes := [] }

/-- A cast list with 10 members. -/
def castC7 : List CastMember :=
  [⟨0, "A0"⟩, ⟨1, "A1"⟩, ⟨2, "A2"⟩, ⟨3, "A3"⟩, ⟨4, "A4"⟩,
   ⟨5, "A5"⟩, ⟨6, "A6"⟩, ⟨7, "A7"⟩, ⟨8, "A8"⟩, ⟨9, "A9"⟩]

/-- A detail body for the 10-cast item. -/
def detC7 : MovieDetails :=
  { title := some "Filme Grande", release_date := some "2001-01-01",
    genres := ["Drama"], vote_average := none }

/-- A credits body with a director and 10 cast members. -/
def creC7 : Credits :=
  { crew := [{ name := "Jane Doe", job := "Director" }], cast := castC7 }

/-- Person body for the primary cast member of the 10-cast item. -/
def perC7 : PersonData :=
  { name := some "P Zero", place_of_birth := none, birthday := none }

/-- Enrichment environment for the 10-cast item. -/
def envC7 : MovieEnv :=
  { detailsResp := fun _ => HttpResult.ok detC7
    creditsResp := fun _ => HttpResult.ok creC7
    personResp := fun _ => HttpResult.ok perC7 }

/-- The record `process_movie` produces from `envC7`. -/
def recC7 : FilmeInfo :=
  { titulo := some "Filme Grande", ano := some 2001, genero := "Drama",
    diretor := "Jane Doe", nota := none, dataLancamento := some "2001-01-01",
    atorPrincipal := some { nome := some "P Zero", idade := none,
                            nacionalidade := some "Desconhecida" },
    atoresCoadjuvantes := ["A1", "A2", "A3", "A4"] }

/-- A detail body for the item whose person lookup fails. -/
def detC8 : MovieDetails :=
  { title := some "Filme Azul", release_date := some "1994-06-15",
    genres := ["Crime"], vote_average := none }

/-- A credits body with two cast members and no crew. -/
def creC8 : Credits :=
  { crew := [], cast := [⟨77, "Lead Person"⟩, ⟨78, "Second Person"⟩] }

/-- Enrichment environment whose person lookup fails on every attempt with
HTTP 500, exhausting the fetch budget. -/
def envC8 : MovieEnv :=
  { detailsResp := fun _ => HttpResult.ok detC8
    creditsResp := fun _ => HttpResult.ok creC8
    personResp := fun _ => HttpResult.otherStatus 500 }

/-- The record `process_movie` produces from `envC8`. -/
def recC8 : FilmeInfo :=
  { titulo := some "Filme Azul", ano := some 1994, genero := "Crime",
    diretor := "Desconhecido", nota := none,
    dataLancamento := some "1994-06-15", atorPrincipal := none,
    atoresCoadjuvantes := ["Second Person"] }

/-- A person body with an explicit birthplace. -/
def perC9 : PersonData :=
  { name := some "Bora Santos", place_of_birth := some (some "Brasil"),
    birthday := some "1970-05-20" }

/-- Person lookup outcomes succeeding immediately with `perC9`. -/
def respC9 : Nat → HttpResult PersonData := fun _ => HttpResult.ok perC9

/-- The profile `get_person_details` builds from `perC9` in 2025. -/
def proC9 : Profile :=
  { nome := some "Bora Santos", idade := some 55,
    nacionalidade := some "Brasil" }

theorem countTitle_cons (t : Option String) (f : FilmeInfo) (l : List FilmeInfo) :
    countTitle t (f :: l) = (if f.titulo = t then 1 else 0) + countTitle t l := by
  unfold countTitle
  rw [List.filter_cons]
  by_cases h : f.titulo = t
  · simp [h, Nat.add_comm]
  · simp [h]

theorem countTitle_append (t : Option String) (a b : List FilmeInfo) :
    countTitle t (a ++ b) = countTitle t a + countTitle t b := by
  unfold countTitle
  rw [List.filter_append, List.length_append]

theorem countTitle_eq_zero_iff {t : Option String} {l : List FilmeInfo} :
    countTitle t l = 0 ↔ ∀ f ∈ l, f.titulo ≠ t := by
  unfold countTitle
  rw [List.length_eq_zero, List.filter_eq_nil]
  simp

theorem mem_titlesOf_iff {t : Option String} {l : List FilmeInfo} :
    t ∈ titlesOf l ↔ ∃ f ∈ l, f.titulo = t := by
  unfold titlesOf
  exact List.mem_map

theorem countTitle_pos_iff {t : Option String} {l : List FilmeInfo} :
    0 < countTitle t l ↔ t ∈ titlesOf l := by
  rw [Nat.pos_iff_ne_zero, Ne, countTitle_eq_zero_iff, mem_titlesOf_iff]
  push_neg
  simp

theorem countTitle_filter_eq {t : Option String} (p : FilmeInfo → Bool)
    (l : List FilmeInfo) (h : ∀ f, f.titulo = t → p f = true) :
    countTitle t (l.filter p) = countTitle t l := by
  induction l with
  | nil => rfl
  | cons g gl ih =>
    rw [List.filter_cons, countTitle_cons]
    by_cases hg : g.titulo = t
    · rw [if_pos (h g hg), countTitle_cons, ih, if_pos hg]
    · by_cases hp : p g = true
      · rw [if_pos hp, countTitle_cons, ih, if_neg hg]
      · rw [if_neg hp, ih, if_neg hg, Nat.zero_add]

theorem countTitle_eq_one_of_nodup {l : List FilmeInfo} {f : FilmeInfo}
    (h : (titlesOf l).Nodup) (hf : f ∈ l) : countTitle f.titulo l = 1 := by
  induction l with
  | nil => cases hf
  | cons g gl ih =>
    have h' : g.titulo ∉ titlesOf gl ∧ (titlesOf gl).Nodup := by
      rw [titlesOf, List.map_cons, List.nodup_cons] at h
      exact h
    rcases List.mem_cons.mp hf with rfl | hmem
    · rw [countTitle_cons, if_pos rfl]
      have : countTitle f.titulo gl = 0 :=
        countTitle_eq_zero_iff.mpr (fun g' hg' he =>
          h'.1 (mem_titlesOf_iff.mpr ⟨g', hg', he⟩))
      omega
    · rw [countTitle_cons, if_neg, ih h'.2 hmem]
      intro he
      exact h'.1 (he ▸ mem_titlesOf_iff.mpr ⟨f, hmem, rfl⟩)

theorem titlesOf_append (a b : List FilmeInfo) :
    titlesOf (a ++ b) = titlesOf a ++ titlesOf b := by
  unfold titlesOf
  exact List.map_append _ _ _

theorem save_fst_eq (store movies : List FilmeInfo) :
    (save_to_mongodb store movies).1 =
      store ++ movies.filter (fun f => decide (f.titulo ∉ titlesOf store)) := by
  cases movies with
  | nil => simp [save_to_mongodb]
  | cons m ms => rfl

theorem save_snd_eq (store movies : List FilmeInfo) :
    (save_to_mongodb store movies).2 =
      (movies.filter (fun f => decide (f.titulo ∉ titlesOf store))).length := by
  cases movies with
  | nil => simp [save_to_mongodb]
  | cons m ms => rfl

theorem mem_titles_save {movies : List FilmeInfo} (store : List FilmeInfo)
    {f : FilmeInfo} (h : f ∈ movies) :
    f.titulo ∈ titlesOf (save_to_mongodb store movies).1 := by
  rw [save_fst_eq, titlesOf_append, List.mem_append]
  by_cases hm : f.titulo ∈ titlesOf store
  · exact Or.inl hm
  · refine Or.inr (mem_titlesOf_iff.mpr ⟨f, List.mem_filter.mpr ⟨h, ?_⟩, rfl⟩)
    simpa using hm

theorem save_second_filter_nil (store movies : List FilmeInfo) :
    movies.filter
      (fun f => decide (f.titulo ∉ titlesOf (save_to_mongodb store movies).1)) =
      [] :=
  List.filter_eq_nil.mpr (fun f hf => by
    simpa using mem_titles_save store hf)

/-- One-step unfolding of the attempt loop. -/
theorem get_jsonAux_succ (resp : Nat → HttpResult β) (attempt n : Nat) :
    get_jsonAux resp attempt (n + 1) =
      match resp attempt with
      | .ok body => Except.ok (some body)
      | .tooManyRequests none => get_jsonAux resp (attempt + 1) n
      | .tooManyRequests (some s) =>
        match pyInt s with
        | some v =>
          if pySleepRaises v then Except.error ()
          else get_jsonAux resp (attempt + 1) n
        | none => Except.error ()
      | .otherStatus _ => get_jsonAux resp (attempt + 1) n
      | .requestException => get_jsonAux resp (attempt + 1) n := rfl

/-- Reduce `get_jsonAux` past one clean failure. -/
theorem get_jsonAux_step {resp : Nat → HttpResult β} {i : Nat}
    (h : cleanFailure (resp i) = true) (n : Nat) :
    get_jsonAux resp i (n + 1) = get_jsonAux resp (i + 1) n := by
  rw [get_jsonAux_succ]
  cases hr : resp i with
  | ok body => rw [hr] at h; simp [cleanFailure] at h
  | tooManyRequests ra =>
    cases ra with
    | none => rfl
    | some s =>
      rw [hr] at h
      simp only [cleanFailure] at h
      cases hp : pyInt s with
      | none => simp only [hp] at h; exact absurd h (by simp)
      | some v =>
        simp only [hp] at h
        have hv : pySleepRaises v = false := by simpa using h
        show (match pyInt s with
          | some v' =>
            if pySleepRaises v' then Except.error ()
            else get_jsonAux resp (i + 1) n
          | none => Except.error ()) = get_jsonAux resp (i + 1) n
        rw [hp]
        show (if pySleepRaises v then Except.error ()
          else get_jsonAux resp (i + 1) n) = get_jsonAux resp (i + 1) n
        rw [hv]
        rfl
  | otherStatus code => rfl
  | requestException => rfl

/-- A 429 whose `Retry-After` parses to a negative integer makes the call
raise out of `time.sleep` rather than retry or return `None`: the model
keeps the source's uncaught-exception path for invalid sleep durations. -/
theorem get_json_negative_sleep :
    pyInt "-5" = some (-5) ∧
    get_json (fun k => if k = 0
      then HttpResult.tooManyRequests (some "-5")
      else (HttpResult.ok 7 : HttpResult Nat)) 3 = Except.error () :=
  ⟨rfl, rfl⟩

/-- Reduce `get_jsonAux` at a successful attempt. -/
theorem get_jsonAux_ok {resp : Nat → HttpResult β} {i : Nat} {b : β}
    (h : resp i = HttpResult.ok b) (n : Nat) :
    get_jsonAux resp i (n + 1) = Except.ok (some b) := by
  rw [get_jsonAux_succ, h]

/-- `find?` returns the entry at the first index satisfying the
predicate. -/
theorem find?_first_index {α : Type} (p : α → Bool) :
    ∀ (l : List α) (i : Nat) (hi : i < l.length),
      p (l.get ⟨i, hi⟩) = true →
      (∀ j (hj : j < l.length), j < i → p (l.get ⟨j, hj⟩) = false) →
      l.find? p = some (l.get ⟨i, hi⟩)
  | [], i, hi, _, _ => absurd hi (by simp)
  | a :: as, 0, _, hp, _ => by
    exact List.find?_cons_of_pos _ hp
  | a :: as, i + 1, hi, hp, hfirst => by
    have ha : p a = false := hfirst 0 (by omega) (by omega)
    rw [List.find?_cons_of_neg _ (by simp [ha])]
    exact find?_first_index p as i (by simpa using Nat.lt_of_succ_lt_succ hi)
      hp (fun j hj hji => hfirst (j + 1) (by omega) (by omega))

/-- From successful detail and credits fetches and a produced record,
recover the record's derived fields. -/
theorem process_movie_fields {env : MovieEnv} {currentYear : Int}
    {details : MovieDetails} {credits : Credits} {record : FilmeInfo}
    (hd : get_json env.detailsResp 3 = Except.ok (some details))
    (hc : get_json env.creditsResp 3 = Except.ok (some credits))
    (hr : process_movie env currentYear = some record) :
    record.genero = generoOf details ∧ record.diretor = diretorOf credits ∧
      record.atoresCoadjuvantes = coadjuvantesOf credits.cast := by
  simp only [process_movie, process_movie_body, hd, hc] at hr
  cases hfp : fetchPrincipal env credits.cast currentYear with
  | error e => rw [hfp] at hr; simp at hr
  | ok ap =>
    rw [hfp] at hr
    cases han : anoOf details with
    | error e => rw [han] at hr; simp at hr
    | ok a =>
      rw [han] at hr
      simp only [Option.some.injEq] at hr
      subst hr
      exact ⟨rfl, rfl, rfl⟩

/-- One-step unfolding of the page retry loop. -/
theorem attempt_page_succ (pageEnv : Nat → Nat → HttpResult (List MovieEnv))
    (currentYear : Int) (attempt n : Nat) :
    attempt_page pageEnv currentYear attempt (n + 1) =
      match process_page (pageEnv attempt) currentYear with
      | .ok ms => ms
      | .error _ => attempt_page pageEnv currentYear (attempt + 1) n := rfl

/-- `main` writes `page + 1` into `page.txt` on both branches of the save
decision. -/
theorem main_step_checkpoint_eq
    (pageEnv : Nat → Nat → HttpResult (List MovieEnv)) (currentYear : Int)
    (page : Nat) (s : RunState) :
    (main_step pageEnv currentYear page s).checkpoint = page + 1 := by
  simp only [main_step]
  split <;> rfl


/-- C1 (counterexample): a page whose three processing attempts all raise —
the listing fetch hits a 429 with an HTTP-date `Retry-After` on every
attempt — leaves the store untouched, yet `main` still persists the
checkpoint advance `page + 1` (here: page 1, checkpoint 2, empty store). -/
theorem checkpoint_advance_cex :
    process_page (failPageEnv 0) 2025 = Except.error () ∧
    process_page (failPageEnv 1) 2025 = Except.error () ∧
    process_page (failPageEnv 2) 2025 = Except.error () ∧
    main_step failPageEnv 2025 1 ⟨1, [], 0⟩ = ⟨2, [], 0⟩ :=
  ⟨rfl, rfl, rfl, rfl⟩

/-- C1 (amended): the durable checkpoint is advanced to `page + 1` after
every page iteration, whether or not the page's records were written to
the store; in particular, when all processing attempts for a page fail,
the checkpoint advance is still persisted while store and total are
unchanged. -/
theorem main_step_always_advances
    (pageEnv : Nat → Nat → HttpResult (List MovieEnv)) (currentYear : Int)
    (page : Nat) (s : RunState) :
    (main_step pageEnv currentYear page s).checkpoint = page + 1 ∧
    ((∀ k, k < 3 → process_page (pageEnv k) currentYear = Except.error ()) →
      (main_step pageEnv currentYear page s).store = s.store ∧
      (main_step pageEnv currentYear page s).total = s.total) := by
  refine ⟨main_step_checkpoint_eq _ _ _ _, fun hfail => ?_⟩
  have hap : attempt_page pageEnv currentYear 0 3 = [] := by
    simp only [attempt_page, hfail 0 (by omega), hfail 1 (by omega),
      hfail 2 (by omega)]
  constructor
  · simp [main_step, hap]
  · simp [main_step, hap]

/-- C1 (witness for the amended claim): with every attempt of page 7
raising, the run state keeps its store and total but the checkpoint
becomes 8. -/
theorem main_step_always_advances_witness :
    (main_step failPageEnv 2025 7 ⟨7, [], 5⟩).checkpoint = 7 + 1 ∧
    (main_step failPageEnv 2025 7 ⟨7, [], 5⟩).store = [] ∧
    (main_step failPageEnv 2025 7 ⟨7, [], 5⟩).total = 5 := by
  have h := main_step_always_advances failPageEnv 2025 7 ⟨7, [], 5⟩
  have h2 := h.2 (fun k _ => rfl)
  exact ⟨h.1, h2.1, h2.2⟩

/-- C2 (counterexample): persisting a batch with two distinct records that
share the title `"Aurora"` into an empty store inserts both; the second
run inserts 0, but the store then contains the title twice, not exactly
once. -/
theorem save_duplicate_title_cex :
    (save_to_mongodb (save_to_mongodb [] dupBatchA).1 dupBatchA).2 = 0 ∧
    countTitle (some "Aurora")
      (save_to_mongodb (save_to_mongodb [] dupBatchA).1 dupBatchA).1 = 2 := by
  decide

/-- C2 (amended): a second `save_to_mongodb` call with the same batch
always inserts 0 records; and provided no two records of the batch share a
title and the store previously held at most one record per such title, the
store afterwards contains each title of the batch exactly once. -/
theorem save_idempotent (store movies : List FilmeInfo) :
    (save_to_mongodb (save_to_mongodb store movies).1 movies).2 = 0 ∧
    ((titlesOf movies).Nodup →
      (∀ f ∈ movies, countTitle f.titulo store ≤ 1) →
      ∀ f ∈ movies,
        countTitle f.titulo
          (save_to_mongodb (save_to_mongodb store movies).1 movies).1 = 1) := by
  have hzero : (save_to_mongodb (save_to_mongodb store movies).1 movies).2 = 0 := by
    rw [save_snd_eq, save_second_filter_nil]
    rfl
  have hfst : (save_to_mongodb (save_to_mongodb store movies).1 movies).1 =
      (save_to_mongodb store movies).1 := by
    rw [save_fst_eq, save_second_filter_nil, List.append_nil]
  refine ⟨hzero, fun hnd hle f hf => ?_⟩
  rw [hfst, save_fst_eq, countTitle_append]
  by_cases hm : f.titulo ∈ titlesOf store
  · have h1 : countTitle f.titulo store = 1 :=
      Nat.le_antisymm (hle f hf) (countTitle_pos_iff.mpr hm)
    have h2 : countTitle f.titulo
        (movies.filter (fun g => decide (g.titulo ∉ titlesOf store))) = 0 := by
      apply countTitle_eq_zero_iff.mpr
      intro g hg he
      have hgs := (List.mem_filter.mp hg).2
      rw [decide_eq_true_iff] at hgs
      exact hgs (he ▸ hm)
    omega
  · have h1 : countTitle f.titulo store = 0 :=
      countTitle_eq_zero_iff.mpr (fun g hg he => hm (mem_titlesOf_iff.mpr ⟨g, hg, he⟩))
    have h2 : countTitle f.titulo
        (movies.filter (fun g => decide (g.titulo ∉ titlesOf store))) =
        countTitle f.titulo movies := by
      apply countTitle_filter_eq
      intro g hgt
      rw [decide_eq_true_iff, hgt]
      exact hm
    have h3 := countTitle_eq_one_of_nodup hnd hf
    omega

/-- C2 (witness): saving a two-title batch (one title already stored)
twice inserts 0 the second time and leaves `"Metropolis"` stored exactly
once. -/
theorem save_idempotent_witness :
    (save_to_mongodb (save_to_mongodb storeW moviesW).1 moviesW).2 = 0 ∧
    countTitle (some "Metropolis")
      (save_to_mongodb (save_to_mongodb storeW moviesW).1 moviesW).1 = 1 := by
  have h := save_idempotent storeW moviesW
  exact ⟨h.1, h.2 (by decide) (by decide)
    (mkFilme (some "Metropolis") (some 1927)) (by decide)⟩

/-- C3 (counterexample): a single `save_to_mongodb` call with a batch
containing two records titled `"Beleza"` leaves the store with a duplicated
title. -/
theorem save_nodup_cex :
    ¬ (titlesOf (save_to_mongodb [] dupBatchB).1).Nodup := by
  decide

/-- C3 (amended): `save_to_mongodb` preserves the no-two-records-share-a-
title invariant provided the input batch itself contains no two records
with the same title. -/
theorem save_preserves_nodup (store movies : List FilmeInfo)
    (h1 : (titlesOf store).Nodup) (h2 : (titlesOf movies).Nodup) :
    (titlesOf (save_to_mongodb store movies).1).Nodup := by
  rw [save_fst_eq, titlesOf_append]
  refine h1.append ?_ ?_
  · have hsub : (titlesOf (movies.filter
        (fun g => decide (g.titulo ∉ titlesOf store)))).Sublist
        (titlesOf movies) := by
      unfold titlesOf
      exact (List.filter_sublist movies).map _
    exact h2.sublist hsub
  · intro t ht1 ht2
    rw [mem_titlesOf_iff] at ht2
    obtain ⟨g, hg, rfl⟩ := ht2
    have hgs := (List.mem_filter.mp hg).2
    rw [decide_eq_true_iff] at hgs
    exact hgs ht1

/-- C3 (witness): inserting a fresh distinct title into a duplicate-free
store keeps all stored titles distinct. -/
theorem save_preserves_nodup_witness :
    (titlesOf (save_to_mongodb storeW3 moviesW3).1).Nodup :=
  save_preserves_nodup storeW3 moviesW3 (by decide) (by decide)

/-- C4 (counterexample): a call all of whose attempts are non-200 — a 500
followed by 429 responses whose `Retry-After` header is an HTTP-date —
does not return the Failure value `None`: `get_json` raises an uncaught
`ValueError` out of the call. -/
theorem get_json_raise_cex :
    isFailureStatus (respRaise 0) = true ∧
    isFailureStatus (respRaise 1) = true ∧
    isFailureStatus (respRaise 2) = true ∧
    get_json respRaise 3 = Except.error () :=
  ⟨rfl, rfl, rfl, rfl⟩

/-- C4 (amended): within the default 3-attempt budget, and provided every
failing 429 attempt carries a `Retry-After` header that is absent or
parses to a valid sleep duration — a non-integer header raises
`ValueError` from `int`, and a negative or unrepresentably large value
raises uncaught from `time.sleep` — if all 3 attempts fail the call
returns the Failure value `None` rather than raising, and if an attempt
returns HTTP 200 after only such clean failures the call returns that
parsed body. -/
theorem get_json_budget (resp : Nat → HttpResult β) :
    ((∀ k, k < 3 → cleanFailure (resp k) = true) →
      get_json resp 3 = Except.ok none) ∧
    (∀ k, k < 3 → (∀ j, j < k → cleanFailure (resp j) = true) →
      ∀ b, resp k = HttpResult.ok b →
        get_json resp 3 = Except.ok (some b)) := by
  constructor
  · intro h
    calc get_json resp 3 = get_jsonAux resp 0 3 := rfl
      _ = get_jsonAux resp 1 2 := get_jsonAux_step (h 0 (by omega)) 2
      _ = get_jsonAux resp 2 1 := get_jsonAux_step (h 1 (by omega)) 1
      _ = get_jsonAux resp 3 0 := get_jsonAux_step (h 2 (by omega)) 0
      _ = Except.ok none := rfl
  · intro k hk hj b hb
    have hk3 : k = 0 ∨ k = 1 ∨ k = 2 := by omega
    rcases hk3 with rfl | rfl | rfl
    · exact get_jsonAux_ok hb 2
    · calc get_json resp 3 = get_jsonAux resp 0 3 := rfl
        _ = get_jsonAux resp 1 2 := get_jsonAux_step (hj 0 (by omega)) 2
        _ = Except.ok (some b) := get_jsonAux_ok hb 1
    · calc get_json resp 3 = get_jsonAux resp 0 3 := rfl
        _ = get_jsonAux resp 1 2 := get_jsonAux_step (hj 0 (by omega)) 2
        _ = get_jsonAux resp 2 1 := get_jsonAux_step (hj 1 (by omega)) 1
        _ = Except.ok (some b) := get_jsonAux_ok hb 0

/-- C4 (witness): three clean HTTP-500 failures return `None`; two network
failures followed by a 200 on the third attempt return that body. -/
theorem get_json_budget_witness :
    get_json respAllFailW 3 = Except.ok none ∧
    get_json respBudgetW 3 = Except.ok (some 7) :=
  ⟨(get_json_budget respAllFailW).1 (fun k _ => rfl),
   (get_json_budget respBudgetW).2 2 (by omega)
     (by intro j hj; interval_cases j <;> rfl) 7 rfl⟩

/-- C5: after `N` successfully completed pages starting at page `P` (the
checkpoint having been loaded as `P`), the durable checkpoint equals
`P + N`. -/
theorem checkpoint_monotonic
    (pageEnvs : Nat → Nat → Nat → HttpResult (List MovieEnv))
    (currentYear : Int) (P N : Nat) (s : RunState) (hs : s.checkpoint = P)
    (hsucc : ∀ p, P ≤ p → p < P + N →
      ∃ k, k < 3 ∧ ∃ ms,
        process_page (pageEnvs p k) currentYear = Except.ok ms) :
    (main_loop pageEnvs currentYear (List.range' P N) s).checkpoint =
      P + N := by
  induction N generalizing P s with
  | zero => simpa [main_loop] using hs
  | succ n ih =>
    rw [List.range'_succ]
    have hstep : main_loop pageEnvs currentYear
        (P :: List.range' (P + 1) n) s =
        main_loop pageEnvs currentYear (List.range' (P + 1) n)
          (main_step (pageEnvs P) currentYear P s) := rfl
    rw [hstep]
    have hrec := ih (P + 1) (main_step (pageEnvs P) currentYear P s)
      (main_step_checkpoint_eq _ _ _ _)
      (fun p hp1 hp2 => hsucc p (by omega) (by omega))
    omega

/-- C5 (witness): three pages starting at page 5, each succeeding on its
first attempt, leave the checkpoint at 8. -/
theorem checkpoint_monotonic_witness :
    (main_loop okPageEnvs 2025 (List.range' 5 3) ⟨5, [], 0⟩).checkpoint =
      5 + 3 :=
  checkpoint_monotonic okPageEnvs 2025 5 3 ⟨5, [], 0⟩ rfl
    (fun p _ _ => ⟨0, by omega, [], rfl⟩)

/-- C6: for every enriched item, an empty genre list yields the sentinel
(`'Desconhecido'`) as category; a crew with no `'Director'` entry yields
the sentinel as director; otherwise the director is the name of the first
crew entry, in listed order, whose job equals `'Director'`. -/
theorem enrich_defaulting (env : MovieEnv) (currentYear : Int)
    (details : MovieDetails) (credits : Credits) (record : FilmeInfo)
    (hd : get_json env.detailsResp 3 = Except.ok (some details))
    (hc : get_json env.creditsResp 3 = Except.ok (some credits))
    (hr : process_movie env currentYear = some record) :
    (details.genres = [] → record.genero = "Desconhecido") ∧
    ((∀ member ∈ credits.crew, member.job ≠ "Director") →
      record.diretor = "Desconhecido") ∧
    (∀ i (hi : i < credits.crew.length),
      (credits.crew.get ⟨i, hi⟩).job = "Director" →
      (∀ j (hj : j < credits.crew.length), j < i →
        (credits.crew.get ⟨j, hj⟩).job ≠ "Director") →
      record.diretor = (credits.crew.get ⟨i, hi⟩).name) := by
  obtain ⟨hg, hdir, _⟩ := process_movie_fields hd hc hr
  refine ⟨?_, ?_, ?_⟩
  · intro he
    rw [hg]
    unfold generoOf
    rw [he]
  · intro hnone
    rw [hdir]
    unfold diretorOf
    have hfind : credits.crew.find?
        (fun member => member.job == "Director") = none :=
      List.find?_eq_none.mpr (fun x hx => by simpa using hnone x hx)
    rw [hfind]
  · intro i hi hjob hfirst
    rw [hdir]
    unfold diretorOf
    have hfind := find?_first_index
      (fun member => member.job == "Director") credits.crew i hi
      (by simpa using hjob)
      (fun j hj hji => by simpa using hfirst j hj hji)
    rw [hfind]

/-- C6 (witness): an item with an empty genre list and a crew containing
only a producer yields category and director `'Desconhecido'`. -/
theorem enrich_defaulting_witness :
    process_movie envC6 2025 = some recC6 ∧
    recC6.genero = "Desconhecido" ∧ recC6.diretor = "Desconhecido" := by
  have h := enrich_defaulting envC6 2025 detC6 creC6 recC6 rfl rfl rfl
  exact ⟨rfl, h.1 rfl, h.2.1 (by decide)⟩

/-- C7: for every enriched item, the supporting-contributor list is the
names of the cast entries at positions 1 through 4 inclusive, in original
cast order, excluding the primary contributor at position 0; its length is
`min 4 (cast length - 1)`, hence exactly 4 for a 10-member cast. -/
theorem supporting_cast_bound (env : MovieEnv) (currentYear : Int)
    (details : MovieDetails) (credits : Credits) (record : FilmeInfo)
    (hd : get_json env.detailsResp 3 = Except.ok (some details))
    (hc : get_json env.creditsResp 3 = Except.ok (some credits))
    (hr : process_movie env currentYear = some record) :
    record.atoresCoadjuvantes.length = min 4 (credits.cast.length - 1) ∧
    (∀ i, i < record.atoresCoadjuvantes.length →
      record.atoresCoadjuvantes.get? i =
        (credits.cast.get? (i + 1)).map (fun a => a.name)) ∧
    (credits.cast.length = 10 →
      record.atoresCoadjuvantes.length = 4) := by
  obtain ⟨_, _, hco⟩ := process_movie_fields hd hc hr
  have heq : record.atoresCoadjuvantes =
      ((credits.cast.drop 1).take 4).map (fun a => a.name) := by
    rw [hco]
    unfold coadjuvantesOf
    by_cases h : credits.cast.length > 1
    · rw [if_pos h]
    · rw [if_neg h]
      have hnil : credits.cast.drop 1 = [] :=
        List.drop_eq_nil_of_le (by omega)
      rw [hnil]
      rfl
  have hlen : record.atoresCoadjuvantes.length =
      min 4 (credits.cast.length - 1) := by
    rw [heq, List.length_map, List.length_take, List.length_drop]
  refine ⟨hlen, ?_, fun h10 => by rw [hlen, h10]; rfl⟩
  intro i hilt
  rw [hlen] at hilt
  rw [heq, List.get?_map, List.get?_take (by omega : i < 4),
    List.get?_drop, Nat.add_comm 1 i]

/-- C7 (witness): an item with 10 cast members keeps exactly 4 supporting
contributor names. -/
theorem supporting_cast_bound_witness :
    process_movie envC7 2025 = some recC7 ∧
    recC7.atoresCoadjuvantes.length = 4 := by
  have h := supporting_cast_bound envC7 2025 detC7 creC7 recC7 rfl rfl rfl
  exact ⟨rfl, h.2.2 rfl⟩

/-- C8: for every item whose detail and credit fetches succeed and whose
cast is nonempty, a person lookup that returns the Failure value yields a
produced record (not a skip) with a null primary contributor — provided
the year parse of the detail record does not itself raise. -/
theorem lookup_failure_keeps_item (env : MovieEnv) (currentYear : Int)
    (details : MovieDetails) (credits : Credits) (a : Option Int)
    (hd : get_json env.detailsResp 3 = Except.ok (some details))
    (hc : get_json env.creditsResp 3 = Except.ok (some credits))
    (hcast : credits.cast ≠ [])
    (hperson : get_person_details env.personResp currentYear =
      Except.ok none)
    (hano : anoOf details = Except.ok a) :
    ∃ record, process_movie env currentYear = some record ∧
      record.atorPrincipal = none := by
  have hfp : fetchPrincipal env credits.cast currentYear =
      Except.ok none := by
    unfold fetchPrincipal
    cases hcc : credits.cast with
    | nil => exact absurd hcc hcast
    | cons c cs => exact hperson
  refine ⟨{ titulo := details.title, ano := a, genero := generoOf details,
            diretor := diretorOf credits, nota := details.vote_average,
            dataLancamento := details.release_date, atorPrincipal := none,
            atoresCoadjuvantes := coadjuvantesOf credits.cast }, ?_, rfl⟩
  simp only [process_movie, process_movie_body, hd, hc, hfp, hano]

/-- C8 (witness): an item whose person lookup fails with HTTP 500 on all
attempts is still produced, with a null primary contributor. -/
theorem lookup_failure_keeps_item_witness :
    process_movie envC8 2025 = some recC8 ∧
    recC8.atorPrincipal = none := by
  obtain ⟨r, hr1, hr2⟩ := lookup_failure_keeps_item envC8 2025 detC8 creC8
    (some 1994) rfl rfl (by decide) rfl rfl
  have hrr : r = recC8 := Option.some.inj (hr1.symm.trans rfl)
  exact ⟨rfl, hrr ▸ hr2⟩

/-- C9 (counterexample): a successful person lookup whose body carries an
explicit null `place_of_birth` (a present key with value `null`) yields a
profile whose origin place is null, not the sentinel. -/
theorem person_null_birthplace_cex :
    get_person_details (fun _ => HttpResult.ok
      { name := some "Alice Null", place_of_birth := some none,
        birthday := none }) 2025 =
      Except.ok (some (Profile.mk (some "Alice Null") none none)) ∧
    (Profile.mk (some "Alice Null") none none).nacionalidade = none :=
  ⟨rfl, rfl⟩

/-- A successful person lookup fills the profile's origin place from the
body's `place_of_birth` field, defaulting only an absent key. -/
theorem person_profile_shape {resp : Nat → HttpResult PersonData}
    {year : Int} {data : PersonData} {p : Profile}
    (hf : get_json resp 3 = Except.ok (some data))
    (hp : get_person_details resp year = Except.ok (some p)) :
    p.nacionalidade = (match data.place_of_birth with
      | none => some "Desconhecida"
      | some v => v) := by
  simp only [get_person_details, hf] at hp
  split at hp
  · simp only [Except.ok.injEq, Option.some.injEq] at hp
    subst hp
    rfl
  · split at hp
    · simp only [Except.ok.injEq, Option.some.injEq] at hp
      subst hp
      rfl
    · split at hp
      · simp only [Except.ok.injEq, Option.some.injEq] at hp
        subst hp
        rfl
      · simp at hp

/-- C9 (amended): for every successful person lookup whose body does not
carry an explicit null `place_of_birth`, the profile's origin place is
never null: it is the sentinel `'Desconhecida'` or the API-provided
place of birth. -/
theorem person_birthplace_sentinel (resp : Nat → HttpResult PersonData)
    (year : Int) (data : PersonData) (p : Profile)
    (hf : get_json resp 3 = Except.ok (some data))
    (hp : get_person_details resp year = Except.ok (some p))
    (hnn : data.place_of_birth ≠ some none) :
    p.nacionalidade ≠ none ∧
      (p.nacionalidade = some "Desconhecida" ∨
        data.place_of_birth = some p.nacionalidade) := by
  have hshape := person_profile_shape hf hp
  cases hpb : data.place_of_birth with
  | none =>
    rw [hpb] at hshape
    exact ⟨by rw [hshape]; simp, Or.inl (by rw [hshape])⟩
  | some v =>
    cases v with
    | none => exact absurd hpb hnn
    | some str =>
      rw [hpb] at hshape
      simp only [] at hshape
      refine ⟨by rw [hshape]; simp, Or.inr ?_⟩
      rw [hshape]

/-- C9 (witness): a lookup whose body provides `'Brasil'` as place of
birth yields a non-null origin place equal to the provided value. -/
theorem person_birthplace_sentinel_witness :
    proC9.nacionalidade ≠ none ∧
      (proC9.nacionalidade = some "Desconhecida" ∨
        perC9.place_of_birth = some proC9.nacionalidade) :=
  person_birthplace_sentinel respC9 2025 perC9 proC9 rfl rfl (by decide)

/-- C10: a 429 response whose `Retry-After` header is an HTTP-date rather
than a decimal integer string makes `get_json` raise an uncaught exception
out of the call — it neither retries (the next attempt would have returned
200 with body 42) nor returns the Failure value `None`. -/
theorem get_json_malformed_retry_after :
    pyInt "Sat, 01 Feb 2025 10:00:00 GMT" = none ∧
    respRetryAfterDate 1 = HttpResult.ok 42 ∧
    get_json respRetryAfterDate 3 = Except.error () :=
  ⟨rfl, rfl, rfl⟩
